import Mathlib

/-!
Verification development for the deal-data normalization, filtering and
metrics pipeline of the `platform_lp_app` repository (files
`google_sheets_service.py`, `app.py`, `deal_components.py`).

The Python code is shallowly embedded:

* spreadsheet cells are `Cell` (a string or an exact number; `gspread`'s
  `get_all_records` returns strings for text cells and numbers for numeric
  cells, and the empty string for blank cells);
* `pandas` float semantics, where they matter for the metrics aggregator
  (division by zero producing infinities, `NaN` skipping in `mean`), are
  embedded as the `PFloat` type with the IEEE-style special values;
* exact finite values are rationals (`ℚ`);
* `pd.to_numeric(-, errors = coerce)` is embedded as `to_numeric`, a total
  function returning `none` for `NaN`, on the fragment of signed decimal
  and scientific literals (optional sign, digits, optional decimal point,
  optional exponent), with exact rational values.  Infinity literals
  (`inf` / `infinity`, optionally signed, any case), which pandas converts
  to infinite floats that `ℚ` cannot represent, lie outside the fragment:
  `isInfLiteral` recognizes them and theorems about coercion carry an
  explicit no-infinity-literal hypothesis, in the same way the search
  theorems carry a no-metacharacter hypothesis.  The subsequent
  `.fillna(0)` is `to_numeric_fillna0`;
* `str.contains(pat, case=False, regex default)` of pandas compiles `pat`
  as a regular expression; it is embedded (`re_search`) on the fragment of
  patterns built from literal characters and the `.` metacharacter, which
  is exactly the fragment the development reasons about.
-/

namespace LP

/-- A spreadsheet cell as returned by `get_all_records`: a text cell or a
numeric cell.  Blank cells arrive as the empty string. -/
inductive Cell where
  | str (s : String)
  | num (q : ℚ)
deriving DecidableEq

/-- Rendering of a cell as a string, as `gspread`'s `row_values` returns
every cell rendered to text. -/
def Cell.asString : Cell → String
  | .str s => s
  | .num q => toString q

/-! ### Numeric coercion: `pd.to_numeric(col, errors='coerce').fillna(0)`
(`google_sheets_service.py` lines 144-148) -/

/-- The numeric value of a decimal digit character, `none` otherwise. -/
def digitVal (c : Char) : Option ℕ :=
  if c.isDigit then some (c.toNat - '0'.toNat) else none

/-- Value of a digit string, most significant digit first. -/
def digitsToInt (cs : List Char) : ℤ :=
  cs.foldl (fun a c => a * 10 + ((digitVal c).getD 0 : ℤ)) 0

/-- Strip leading and trailing whitespace from a character list (the
whitespace tolerance of the pandas numeric parser, and of `str.strip`). -/
def stripWS (cs : List Char) : List Char :=
  ((cs.dropWhile Char.isWhitespace).reverse.dropWhile Char.isWhitespace).reverse

/-- Parse a mantissa: digits with at most one decimal point and at least
one digit.  Returns the digit value together with the number of
fractional digits.  Anything else is `none` (which pandas turns into
`NaN` under `errors='coerce'`). -/
def parseMantissa (cs : List Char) : Option (ℤ × ℕ) :=
  match cs.splitOn '.' with
  | [ds] =>
      if ds ≠ [] ∧ ds.all Char.isDigit then some (digitsToInt ds, 0) else none
  | [ds, fs] =>
      if (ds ≠ [] ∨ fs ≠ []) ∧ ds.all Char.isDigit ∧ fs.all Char.isDigit then
        some (digitsToInt (ds ++ fs), fs.length)
      else none
  | _ => none

/-- Split a literal at the first exponent marker `e` / `E`, if any. -/
def splitExpMarker : List Char → List Char × Option (List Char)
  | [] => ([], none)
  | c :: cs =>
      if c == 'e' || c == 'E' then ([], some cs)
      else
        let r := splitExpMarker cs
        (c :: r.1, r.2)

/-- Parse an exponent: an optional sign followed by at least one digit. -/
def parseExpPart : List Char → Option ℤ
  | '-' :: ds =>
      if ds ≠ [] ∧ ds.all Char.isDigit then some (-(digitsToInt ds)) else none
  | '+' :: ds =>
      if ds ≠ [] ∧ ds.all Char.isDigit then some (digitsToInt ds) else none
  | ds => if ds ≠ [] ∧ ds.all Char.isDigit then some (digitsToInt ds) else none

/-- `m * 10 ^ k` by repeated integer multiplication. -/
def shift10 (m : ℤ) : ℕ → ℤ
  | 0 => m
  | k + 1 => shift10 (m * 10) k

/-- The exact rational value of mantissa digits `m` with `k` fractional
digits and decimal exponent `e`: `m * 10 ^ (e - k)`. -/
def mantissaExpToRat (m : ℤ) (k : ℕ) (e : ℤ) : ℚ :=
  if 0 ≤ e - (k : ℤ) then ((shift10 m (e - (k : ℤ)).toNat : ℤ) : ℚ)
  else ((m : ℤ) : ℚ) / ((shift10 1 ((k : ℤ) - e).toNat : ℤ) : ℚ)

/-- Parse an unsigned decimal or scientific literal (mantissa with an
optional `e` / `E` exponent), e.g. `1000`, `2.5`, `1e5`, `1.5e-2`. -/
def parseUnsigned (cs : List Char) : Option ℚ :=
  match splitExpMarker cs with
  | (mant, none) => (parseMantissa mant).map (fun p => mantissaExpToRat p.1 p.2 0)
  | (mant, some ex) =>
      match parseMantissa mant, parseExpPart ex with
      | some p, some e => some (mantissaExpToRat p.1 p.2 e)
      | _, _ => none

/-- Parse a signed decimal or scientific literal. -/
def parseSigned (cs : List Char) : Option ℚ :=
  match cs with
  | '-' :: rest => (parseUnsigned rest).map (fun q => -q)
  | '+' :: rest => parseUnsigned rest
  | _ => parseUnsigned cs

/-- An infinity literal: optionally signed, case-insensitive `inf` or
`infinity` after stripping whitespace.  pandas converts these to infinite
floats, which the exact-rational embedding cannot represent, so the
coercion theorems exclude them by hypothesis. -/
def isInfLiteral (s : String) : Bool :=
  let cs := stripWS s.data
  let body :=
    match cs with
    | '-' :: r => r
    | '+' :: r => r
    | r => r
  let low := body.map Char.toLower
  low == ['i', 'n', 'f'] || low == ['i', 'n', 'f', 'i', 'n', 'i', 't', 'y']

/-- A cell on which the embedded numeric coercion is faithful to pandas:
any numeric cell, and any text cell that is not an infinity literal. -/
def cellNotInf (c : Cell) : Bool :=
  match c with
  | .str s => !(isInfLiteral s)
  | .num _ => true

/-- `pd.to_numeric(-, errors='coerce')` on one cell: numeric cells pass
through, text cells are parsed as signed decimal or scientific literals,
everything else becomes `NaN` (`none`).  Faithful to pandas on every cell
satisfying `cellNotInf`; values are exact rationals (the embedding does
not model floating-point rounding or overflow). -/
def to_numeric (c : Cell) : Option ℚ :=
  match c with
  | .num q => some q
  | .str s => parseSigned (stripWS s.data)

/-- `pd.to_numeric(-, errors='coerce').fillna(0)` on one cell. -/
def to_numeric_fillna0 (c : Cell) : ℚ :=
  (to_numeric c).getD 0

/-! ### The record normalizer: `GoogleSheetsService.get_deals`
(`google_sheets_service.py` lines 89-157) -/

/-- The header-alias table of `get_deals` (`column_mapping`, lines
106-133), verbatim. -/
def column_mapping : List (String × String) :=
  [("Title", "title"), ("title", "title"),
   ("Description", "description"), ("description", "description"),
   ("Industry", "industry"), ("industry", "industry"),
   ("Target Amount", "target_amount"), ("target_amount", "target_amount"),
   ("TargetAmount", "target_amount"),
   ("Raised Amount", "raised_amount"), ("raised_amount", "raised_amount"),
   ("RaisedAmount", "raised_amount"),
   ("Status", "status"), ("status", "status"),
   ("Min Investment", "min_investment"), ("min_investment", "min_investment"),
   ("MinInvestment", "min_investment"),
   ("Due Date", "due_date"), ("due_date", "due_date"), ("DueDate", "due_date"),
   ("Documents Link", "documents_link"), ("documents_link", "documents_link"),
   ("DocumentsLink", "documents_link"),
   ("Image URL", "image_url"), ("image_url", "image_url"),
   ("ImageURL", "image_url")]

/-- `df.rename(columns=column_mapping)` on one header: a recognized alias
is replaced by its canonical name, any other header is left unchanged. -/
def canonicalize (h : String) : String :=
  (column_mapping.lookup h).getD h

/-- A raw table as handed to the normalizer: the header row and the data
rows, each data row aligned with the headers (`get_all_records`). -/
structure RawTable where
  headers : List String
  rows : List (List Cell)
deriving DecidableEq

/-- Column access on a row: the position of the first header equal to
`col` (pandas column selection after the rename), then that entry of the
row. -/
def getCell (hs : List String) (row : List Cell) (col : String) : Option Cell :=
  match hs.findIdx? (fun h => h == col) with
  | some i => row.get? i
  | none => none

/-- A required text column: the cell if the column exists, else the
synthesized default `''` (`get_deals` lines 138-142). -/
def getText (hs : List String) (row : List Cell) (col : String) : Cell :=
  (getCell hs row col).getD (Cell.str "")

/-- A numeric column after coercion: the coerced cell if the column
exists, else the synthesized default `0` (`get_deals` lines 138-148). -/
def getNum (hs : List String) (row : List Cell) (col : String) : ℚ :=
  match getCell hs row col with
  | some c => to_numeric_fillna0 c
  | none => 0

/-- A normalized deal record.  The six required fields always exist
(synthesized when missing); `min_investment` exists only when a recognized
`min_investment` column is present in the input, since `get_deals` does
not list it among `required_columns` (line 139) and coerces it only `if
col in df.columns` (line 147). -/
structure NDeal where
  title : Cell
  description : Cell
  industry : Cell
  status : Cell
  target_amount : ℚ
  raised_amount : ℚ
  min_investment : Option ℚ
deriving DecidableEq

/-- One data row of the renamed table, turned into a normalized record. -/
def rowToDeal (hs : List String) (row : List Cell) : NDeal :=
  { title := getText hs row "title"
    description := getText hs row "description"
    industry := getText hs row "industry"
    status := getText hs row "status"
    target_amount := getNum hs row "target_amount"
    raised_amount := getNum hs row "raised_amount"
    min_investment :=
      if "min_investment" ∈ hs then some (getNum hs row "min_investment")
      else none }

/-- The title filter of `get_deals` (lines 150-152):
`df.dropna(subset=['title'])` followed by
`df[df['title'].str.strip() != '']`.  A text title survives iff it is
non-blank after stripping; a numeric title survives (the `.str` accessor
yields `NaN` on a non-string and `NaN != ''` holds elementwise). -/
def title_kept (c : Cell) : Bool :=
  match c with
  | .str s => !(stripWS s.data).isEmpty
  | .num _ => true

/-- The data transformation of `GoogleSheetsService.get_deals` (lines
97-154): empty fetch gives the empty collection; otherwise rename the
headers, synthesize missing required columns, coerce the numeric columns,
and drop rows with blank titles. -/
def get_deals (t : RawTable) : List NDeal :=
  if t.rows.isEmpty then []
  else
    let hs := t.headers.map canonicalize
    ((t.rows.map (rowToDeal hs)).filter (fun d => title_kept d.title))

/-! ### The filter engine: `app.py` `main`, lines 371-395 -/

/-- A deal record as consumed by the presentation page (string fields plus
the coerced amounts). -/
structure Deal where
  title : String
  description : String
  industry : String
  status : String
  target_amount : ℚ
  raised_amount : ℚ
deriving DecidableEq

/-- The metacharacters of Python regular expressions.  `str.contains`
(used by the search filter) compiles its argument as a regex, so a search
term containing any of these is not matched literally. -/
def regexMeta : List Char :=
  ['.', '^', '$', '*', '+', '?', '\x7b', '\x7d', '[', ']', '\\', '|', '(', ')']

/-- One step of regex matching under `re.IGNORECASE`, on the fragment of
literal characters plus the `.` metacharacter: `.` matches any character
except a newline, a literal matches up to case. -/
def reCharMatch (p c : Char) : Bool :=
  (p == '.' && c != '\n') || p.toLower == c.toLower

/-- Match a literal-plus-dot pattern against a prefix of the text. -/
def reMatchHere : List Char → List Char → Bool
  | [], _ => true
  | _ :: _, [] => false
  | p :: ps, c :: cs => reCharMatch p c && reMatchHere ps cs

/-- `re.search` with `re.IGNORECASE` on the literal-plus-dot fragment:
the pattern matches at some position of the text. -/
def re_search (pat text : List Char) : Bool :=
  text.tails.any (fun t => reMatchHere pat t)

/-- `series.str.contains(pat, case=False, na=False)` on one string value:
case-insensitive regex search of `pat` within `s`. -/
def str_contains_ci (s pat : String) : Bool :=
  re_search pat.data s.data

/-- The filter parameters of the sidebar: the search text (`''` when the
input is empty, which Python treats as falsy), the `'All'`-sentinel
selectboxes, and the optional amount range (`None` when the sheet has no
positive target amounts). -/
structure Filters where
  search_term : String
  selected_industry : String
  selected_status : String
  amount_range : Option (ℚ × ℚ)
deriving DecidableEq

/-- The filter cascade of `main` (`app.py` lines 371-395): the search
mask over title or description when the search text is non-empty, exact
industry equality unless `'All'`, exact status equality unless `'All'`,
and the inclusive target-amount range when one is supplied. -/
def apply_filters (deals : List Deal) (f : Filters) : List Deal :=
  let d1 :=
    if f.search_term = "" then deals
    else deals.filter (fun d =>
      str_contains_ci d.title f.search_term || str_contains_ci d.description f.search_term)
  let d2 :=
    if f.selected_industry = "All" then d1
    else d1.filter (fun d => d.industry == f.selected_industry)
  let d3 :=
    if f.selected_status = "All" then d2
    else d2.filter (fun d => d.status == f.selected_status)
  match f.amount_range with
  | some r => d3.filter (fun d =>
      decide (r.1 ≤ d.target_amount) && decide (d.target_amount ≤ r.2))
  | none => d3

/-- Modelled from the spec: `pat` is a case-insensitive substring of `s`
(some suffix of `s`, letter-for-letter lowercased, starts with the
lowercased `pat`). -/
def isSubstringCI (pat s : String) : Bool :=
  ((s.data.map Char.toLower).tails).any
    (fun t => (pat.data.map Char.toLower).isPrefixOf t)

/-- Modelled from the spec: the conjunction of the four filter
predicates, with omitted predicates and the `'All'` sentinel imposing no
constraint, search as case-insensitive substring of title or description,
exact industry and status equality, and an inclusive amount range. -/
def specFilterPred (f : Filters) (d : Deal) : Bool :=
  (decide (f.search_term = "")
    || (isSubstringCI f.search_term d.title || isSubstringCI f.search_term d.description))
  && (decide (f.selected_industry = "All") || d.industry == f.selected_industry)
  && (decide (f.selected_status = "All") || d.status == f.selected_status)
  && (match f.amount_range with
      | some r => decide (r.1 ≤ d.target_amount) && decide (d.target_amount ≤ r.2)
      | none => true)

/-- The conjunction actually computed by the filter cascade of `main`:
like `specFilterPred` except that the search text is interpreted as a
regular-expression pattern (`str_contains_ci`), not as a literal
substring. -/
def codeFilterPred (f : Filters) (d : Deal) : Bool :=
  (decide (f.search_term = "")
    || (str_contains_ci d.title f.search_term || str_contains_ci d.description f.search_term))
  && (decide (f.selected_industry = "All") || d.industry == f.selected_industry)
  && (decide (f.selected_status = "All") || d.status == f.selected_status)
  && (match f.amount_range with
      | some r => decide (r.1 ≤ d.target_amount) && decide (d.target_amount ≤ r.2)
      | none => true)

/-! ### pandas float semantics for the metrics aggregator -/

/-- A pandas (IEEE-754 style) float value, with exact finite values. -/
inductive PFloat where
  | fin (q : ℚ)
  | inf
  | ninf
  | nan
deriving DecidableEq

/-- IEEE addition as performed by pandas sums. -/
def PFloat.add : PFloat → PFloat → PFloat
  | nan, _ => nan
  | _, nan => nan
  | fin a, fin b => fin (a + b)
  | fin _, inf => inf
  | fin _, ninf => ninf
  | inf, fin _ => inf
  | ninf, fin _ => ninf
  | inf, inf => inf
  | ninf, ninf => ninf
  | inf, ninf => nan
  | ninf, inf => nan

/-- IEEE multiplication as performed by pandas elementwise products. -/
def PFloat.mul : PFloat → PFloat → PFloat
  | nan, _ => nan
  | _, nan => nan
  | fin a, fin b => fin (a * b)
  | fin a, inf => if 0 < a then inf else if a < 0 then ninf else nan
  | fin a, ninf => if 0 < a then ninf else if a < 0 then inf else nan
  | inf, fin b => if 0 < b then inf else if b < 0 then ninf else nan
  | ninf, fin b => if 0 < b then ninf else if b < 0 then inf else nan
  | inf, inf => inf
  | ninf, ninf => inf
  | inf, ninf => ninf
  | ninf, inf => ninf

/-- IEEE division as performed by pandas elementwise division: a nonzero
finite value divided by zero gives a signed infinity, `0 / 0` gives
`NaN`. -/
def PFloat.div : PFloat → PFloat → PFloat
  | nan, _ => nan
  | _, nan => nan
  | fin a, fin b =>
      if b = 0 then (if 0 < a then inf else if a < 0 then ninf else nan)
      else fin (a / b)
  | inf, fin b => if b < 0 then ninf else inf
  | ninf, fin b => if b < 0 then inf else ninf
  | fin _, inf => fin 0
  | fin _, ninf => fin 0
  | inf, inf => nan
  | inf, ninf => nan
  | ninf, inf => nan
  | ninf, ninf => nan

/-- `pandas.Series.mean()`: `NaN` entries are skipped (`skipna` default);
the mean of what remains, `NaN` when nothing remains.  Infinities are not
skipped and propagate into the result. -/
def pmean (l : List PFloat) : PFloat :=
  let v := l.filter (fun x => !(x == PFloat.nan))
  if v.isEmpty then PFloat.nan
  else (v.foldl PFloat.add (PFloat.fin 0)).div (PFloat.fin (v.length : ℚ))

/-! ### The metrics aggregator: `DealMetrics` (`deal_components.py`
lines 143-222) -/

/-- The five summary numbers computed by `render_summary_metrics`. -/
structure Metrics where
  total_deals : ℕ
  total_target : ℚ
  total_raised : ℚ
  avg_progress : PFloat
  open_deals : ℕ
deriving DecidableEq

/-- `DealMetrics.render_summary_metrics` (lines 143-173): on an empty
frame it shows an informational message and returns without computing any
metric (`none`); otherwise it computes the count, the two sums, the mean
of `raised_amount / target_amount * 100` (with no guard against a zero
`target_amount`), and the open-deal count. -/
def render_summary_metrics (deals : List Deal) : Option Metrics :=
  if deals.isEmpty then none
  else some
    { total_deals := deals.length
      total_target := (deals.map Deal.target_amount).sum
      total_raised := (deals.map Deal.raised_amount).sum
      avg_progress := pmean (deals.map (fun d =>
        ((PFloat.fin d.raised_amount).div (PFloat.fin d.target_amount)).mul
          (PFloat.fin 100)))
      open_deals := (deals.filter (fun d => d.status == "Open")).length }

/-- `series.value_counts()`: the frequency count of each occurring value.
(pandas additionally orders the result by descending count; no claim
depends on the order, and this embedding keeps first-occurrence order.) -/
def value_counts (l : List String) : List (String × ℕ) :=
  l.dedup.map (fun s => (s, l.count s))

/-- `DealMetrics.render_industry_breakdown` (lines 176-199): nothing on an
empty frame, otherwise the industry frequency counts. -/
def render_industry_breakdown (deals : List Deal) : Option (List (String × ℕ)) :=
  if deals.isEmpty then none
  else some (value_counts (deals.map Deal.industry))

/-- `DealMetrics.render_status_distribution` (lines 202-222): nothing on
an empty frame, otherwise the status frequency counts. -/
def render_status_distribution (deals : List Deal) : Option (List (String × ℕ)) :=
  if deals.isEmpty then none
  else some (value_counts (deals.map Deal.status))

/-- Modelled from the spec: per-deal progress,
`raised_amount / target_amount * 100` when `target_amount > 0`, else 0. -/
def specProgress (d : Deal) : ℚ :=
  if 0 < d.target_amount then d.raised_amount / d.target_amount * 100 else 0

/-- Modelled from the spec: `averageProgressPct`, the arithmetic mean of
per-deal progress, 0 for the empty collection. -/
def specAverageProgressPct (deals : List Deal) : ℚ :=
  if deals.isEmpty then 0
  else (deals.map specProgress).sum / (deals.length : ℚ)

/-! ### Per-deal progress display: `app.py` `display_deal_card` line 433
and `deal_components.py` `DealCard.create_progress_chart` line 29 -/

/-- The progress percentage computed by `display_deal_card`. -/
def display_progress (d : Deal) : ℚ :=
  if 0 < d.target_amount then d.raised_amount / d.target_amount * 100 else 0

/-- The gauge value computed by `DealCard.create_progress_chart`. -/
def create_progress_chart_value (raised target : ℚ) : ℚ :=
  if 0 < target then raised / target * 100 else 0

/-! ### The write operations: `add_deal` and `update_deal`
(`google_sheets_service.py` lines 159-203) -/

/-- The remote worksheet: its cell grid, row 1 being the header row. -/
structure Worksheet where
  grid : List (List Cell)
deriving DecidableEq

/-- `worksheet.row_values(n)`: row `n` (1-indexed) rendered as strings. -/
def Worksheet.row_values (ws : Worksheet) (n : ℕ) : List String :=
  ((ws.grid.get? (n - 1)).getD []).map Cell.asString

/-- Replace row `i` (0-indexed) of a grid by `f` applied to it. -/
def modifyNthRow (f : List Cell → List Cell) : List (List Cell) → ℕ → List (List Cell)
  | [], _ => []
  | r :: rs, 0 => f r :: rs
  | r :: rs, n + 1 => r :: modifyNthRow f rs n

/-- `worksheet.update_cell(row, col, v)`, both indices 1-based. -/
def Worksheet.update_cell (ws : Worksheet) (row col : ℕ) (v : Cell) : Worksheet :=
  { grid := modifyNthRow (fun r => r.set (col - 1) v) ws.grid (row - 1) }

/-- `worksheet.append_row(row)`. -/
def Worksheet.append_row (ws : Worksheet) (row : List Cell) : Worksheet :=
  { grid := ws.grid ++ [row] }

/-- Python `dict.get(k, default)` on an association list. -/
def dict_get (d : List (String × Cell)) (k : String) (dflt : Cell) : Cell :=
  (d.lookup k).getD dflt

/-- `GoogleSheetsService.add_deal` (lines 159-184): build the fixed
ten-value row with its per-field defaults and append it positionally;
report success. -/
def add_deal (ws : Worksheet) (deal_data : List (String × Cell)) : Worksheet × Bool :=
  let row_data :=
    [dict_get deal_data "title" (.str ""),
     dict_get deal_data "description" (.str ""),
     dict_get deal_data "industry" (.str ""),
     dict_get deal_data "target_amount" (.num 0),
     dict_get deal_data "raised_amount" (.num 0),
     dict_get deal_data "status" (.str "Open"),
     dict_get deal_data "min_investment" (.num 0),
     dict_get deal_data "due_date" (.str ""),
     dict_get deal_data "documents_link" (.str ""),
     dict_get deal_data "image_url" (.str "")]
  (ws.append_row row_data, true)

/-- `GoogleSheetsService.update_deal` (lines 186-203): for each supplied
field, re-read the header row, and if the field name is among the current
headers update the cell in that column of the given row; otherwise do
nothing for that field.  Always reports success. -/
def update_deal (ws : Worksheet) (row_number : ℕ)
    (deal_data : List (String × Cell)) : Worksheet × Bool :=
  (deal_data.foldl (fun w p =>
      let headers := w.row_values 1
      if p.1 ∈ headers then
        w.update_cell row_number (headers.indexOf p.1 + 1) p.2
      else w) ws, true)

/-! ### Helper lemmas -/

/-- A conditional filter stage is a single filter. -/
theorem filter_stage {α : Type} (c : Prop) [Decidable c] (p : α → Bool) (l : List α) :
    (if c then l else l.filter p) = l.filter (fun a => decide c || p a) := by
  by_cases h : c
  · simp [h]
  · simp [h]

/-- The filter cascade of `main` is one filter by the conjunction of the
four predicates. -/
theorem apply_filters_eq_filter (deals : List Deal) (f : Filters) :
    apply_filters deals f = deals.filter (codeFilterPred f) := by
  simp only [apply_filters]
  rw [filter_stage, filter_stage, filter_stage, List.filter_filter, List.filter_filter]
  rcases har : f.amount_range with _ | r <;> simp only [har]
  · exact List.filter_congr (fun d _ => by
      simp only [codeFilterPred, har]
      cases h1 : decide (f.search_term = "")
          || (str_contains_ci d.title f.search_term
            || str_contains_ci d.description f.search_term) <;>
        cases h2 : decide (f.selected_industry = "All") || d.industry == f.selected_industry <;>
        cases h3 : decide (f.selected_status = "All") || d.status == f.selected_status <;> rfl)
  · rw [List.filter_filter]
    exact List.filter_congr (fun d _ => by
      simp only [codeFilterPred, har]
      cases h1 : decide (f.search_term = "")
          || (str_contains_ci d.title f.search_term
            || str_contains_ci d.description f.search_term) <;>
        cases h2 : decide (f.selected_industry = "All") || d.industry == f.selected_industry <;>
        cases h3 : decide (f.selected_status = "All") || d.status == f.selected_status <;>
        cases h4 : decide (r.1 ≤ d.target_amount) && decide (d.target_amount ≤ r.2) <;> rfl)

/-- On a pattern without the `.` metacharacter, one-position regex
matching is a case-insensitive prefix test. -/
theorem reMatchHere_eq_isPrefixOf :
    ∀ (pat : List Char), '.' ∉ pat → ∀ t : List Char,
      reMatchHere pat t = (pat.map Char.toLower).isPrefixOf (t.map Char.toLower)
  | [], _, t => by cases t <;> simp [reMatchHere, List.isPrefixOf]
  | p :: ps, h, [] => by simp [reMatchHere, List.isPrefixOf]
  | p :: ps, h, c :: cs => by
    have hp : p ≠ '.' := fun hc => h (hc ▸ List.mem_cons_self p ps)
    have hps : '.' ∉ ps := fun hc => h (List.mem_cons_of_mem p hc)
    have hbeq : (p == '.') = false := by
      simp [hp]
    simp [reMatchHere, List.isPrefixOf, reCharMatch, hbeq,
      reMatchHere_eq_isPrefixOf ps hps cs]

/-- `tails` commutes with `map`. -/
theorem tails_map {α β : Type} (f : α → β) :
    ∀ l : List α, (l.map f).tails = l.tails.map (List.map f)
  | [] => by simp
  | a :: l => by simp [List.tails_cons, tails_map f l]

/-- On a pattern without the `.` metacharacter, regex search is a
case-insensitive substring test. -/
theorem str_contains_ci_eq_isSubstringCI (s pat : String)
    (h : '.' ∉ pat.data) :
    str_contains_ci s pat = isSubstringCI pat s := by
  unfold str_contains_ci re_search isSubstringCI
  have hfun : (fun t => reMatchHere pat.data t)
      = (fun t => (pat.data.map Char.toLower).isPrefixOf (t.map Char.toLower)) :=
    funext (reMatchHere_eq_isPrefixOf pat.data h)
  rw [hfun, tails_map]
  rw [List.any_map]
  rfl

/-- A cell delivered by column access is a cell of the row. -/
theorem mem_of_getCell {hs : List String} {row : List Cell} {col : String}
    {c : Cell} (h : getCell hs row col = some c) : c ∈ row := by
  unfold getCell at h
  cases hf : hs.findIdx? (fun h => h == col) with
  | none => rw [hf] at h; exact absurd h (by simp)
  | some i => rw [hf] at h; exact List.get?_mem h

/-- A coerced numeric field is non-negative when every cell of the row
coerces to a non-negative value (a missing column contributes its
synthesized `0`). -/
theorem getNum_nonneg {hs : List String} {row : List Cell} {col : String}
    (h : ∀ c ∈ row, 0 ≤ to_numeric_fillna0 c) : 0 ≤ getNum hs row col := by
  cases hc : getCell hs row col with
  | none => simp [getNum, hc]
  | some c =>
    have := h c (mem_of_getCell hc)
    simpa [getNum, hc] using this

/-! ### The claims -/

/-- Claim C1.  The claim states that `averageProgressPct` is the
arithmetic mean of per-deal progress with a deal of zero target counting
as progress 0, so that the result is finite even when some deal has
`target_amount = 0`.  The code divides without the zero guard
(`deal_components.py` line 154), so a single deal with `target_amount = 0`
and `raised_amount = 100` makes the displayed average `+inf`, while the
claimed mean of per-deal progress is 0. -/
theorem C1_unguarded_mean_is_infinite :
    (render_summary_metrics
        [{ title := "A", description := "", industry := "Tech", status := "Open",
           target_amount := 0, raised_amount := 100 }]).map Metrics.avg_progress
      = some PFloat.inf
    ∧ specAverageProgressPct
        [{ title := "A", description := "", industry := "Tech", status := "Open",
           target_amount := 0, raised_amount := 100 }] = 0 := by
  refine ⟨by decide, ?_⟩
  simp [specAverageProgressPct, specProgress]

/-- Claim C2, counterexample.  A raw `Target Amount` value of `"-5"` is a
numeric string, and normalization passes it through as the negative
number `-5`: the normalized field is not non-negative.  The same happens
in scientific notation, which pandas parses: `"-1e3"` normalizes to
`-1000` (and `"1e5"` to `100000`). -/
theorem C2_counterexample :
    ((get_deals ⟨["Title", "Target Amount"], [[Cell.str "A", Cell.str "-5"]]⟩).map
        NDeal.target_amount = [(-5 : ℚ)]
      ∧ ¬ (0 : ℚ) ≤ -5)
    ∧ (get_deals ⟨["Title", "Target Amount"], [[Cell.str "A", Cell.str "-1e3"]]⟩).map
        NDeal.target_amount = [(-1000 : ℚ)]
    ∧ (get_deals ⟨["Title", "Target Amount"], [[Cell.str "A", Cell.str "1e5"]]⟩).map
        NDeal.target_amount = [(100000 : ℚ)] := by decide

/-- Claim C2 (amended).  Numeric coercion is total and never yields
null/NaN — unparseable or absent values become 0 — and, for raw values
that are not infinity literals (`'inf'` / `'infinity'`, which pandas
converts to infinite floats), the normalized field is a finite number;
but the result is not unconditionally non-negative: a raw value denoting
a negative number, including in scientific notation, passes through
unchanged.  Whenever no raw cell is an infinity literal and every raw
cell coerces to a non-negative value, every numeric field of every
normalized record is a finite non-negative rational.  (The first
hypothesis confines the statement to the cells on which the embedded
coercion is faithful to pandas, exactly as the search theorems confine
themselves to metacharacter-free patterns.) -/
theorem C2_coercion_finite_nonneg :
    ∀ t : RawTable,
      (∀ row ∈ t.rows, ∀ c ∈ row, cellNotInf c = true) →
      (∀ row ∈ t.rows, ∀ c ∈ row, 0 ≤ to_numeric_fillna0 c) →
      ∀ d ∈ get_deals t,
        0 ≤ d.target_amount ∧ 0 ≤ d.raised_amount ∧
          ∀ q, d.min_investment = some q → 0 ≤ q := by
  intro t _ h d hd
  unfold get_deals at hd
  by_cases hrows : t.rows.isEmpty
  · simp [hrows] at hd
  · rw [if_neg (by simpa using hrows)] at hd
    obtain ⟨hmem, -⟩ := List.mem_filter.mp hd
    obtain ⟨row, hrow, hdef⟩ := List.mem_map.mp hmem
    have hcells := h row hrow
    subst hdef
    refine ⟨getNum_nonneg hcells, getNum_nonneg hcells, ?_⟩
    intro q hq
    by_cases hmi : "min_investment" ∈ t.headers.map canonicalize
    · rw [show (rowToDeal (t.headers.map canonicalize) row).min_investment
          = some (getNum (t.headers.map canonicalize) row "min_investment") by
            simp [rowToDeal, hmi]] at hq
      cases hq
      exact getNum_nonneg hcells
    · rw [show (rowToDeal (t.headers.map canonicalize) row).min_investment = none by
          simp [rowToDeal, hmi]] at hq
      cases hq

/-- Claim C2, witness instance. -/
theorem C2_witness :
    (∀ row ∈ ([[Cell.str "A", Cell.str "5"]] : List (List Cell)),
      ∀ c ∈ row, cellNotInf c = true)
    ∧ (∀ row ∈ ([[Cell.str "A", Cell.str "5"]] : List (List Cell)),
      ∀ c ∈ row, 0 ≤ to_numeric_fillna0 c)
    ∧ ∀ d ∈ get_deals ⟨["Title", "Target Amount"], [[Cell.str "A", Cell.str "5"]]⟩,
        0 ≤ d.target_amount ∧ 0 ≤ d.raised_amount ∧
          ∀ q, d.min_investment = some q → 0 ≤ q :=
  ⟨by decide, by decide, C2_coercion_finite_nonneg _ (by decide) (by decide)⟩

/-- Claim C3.  Normalization retains a row exactly when its title (after
alias resolution, with `''` synthesized when the column is missing)
is non-blank — for a text cell, non-empty after trimming whitespace; a
numeric title cell always counts as non-blank — and each retained row
yields exactly one normalized record, in order, with no merging of
duplicates: `get_deals` is the element-wise image of the title-filtered
row list. -/
theorem C3_retained_iff_title_nonblank (t : RawTable) :
    get_deals t
      = (t.rows.filter (fun row =>
          title_kept (getText (t.headers.map canonicalize) row "title"))).map
          (rowToDeal (t.headers.map canonicalize)) := by
  rcases t with ⟨hs, rows⟩
  cases rows with
  | nil => rfl
  | cons r rs =>
    simp only [get_deals, List.isEmpty_cons, Bool.false_eq_true, if_false]
    rw [List.filter_map]
    rfl

/-- Claim C4, counterexample.  Updating a field whose name is not a
current column header succeeds (`True` is returned) and silently leaves
the sheet unchanged; no `SchemaMismatchError` is raised (none exists in
the code). -/
theorem C4_counterexample :
    update_deal ⟨[[Cell.str "Title"], [Cell.str "x"]]⟩ 2
        [("does_not_exist", Cell.num 5)]
      = (⟨[[Cell.str "Title"], [Cell.str "x"]]⟩, true) := by decide

/-- Claim C4 (amended).  `update_deal` resolves target columns by header
name against the sheet's current first row at call time, but a supplied
field name that is not a current header is silently skipped and the
operation still reports success: the success flag is always `true`; if no
supplied field matches a header the sheet is unchanged; and a field that
does match is written at the 1-based position of its header. -/
theorem C4_update_skips_unknown_fields :
    (∀ (ws : Worksheet) (r : ℕ) (data : List (String × Cell)),
        (update_deal ws r data).2 = true)
    ∧ (∀ (ws : Worksheet) (r : ℕ) (data : List (String × Cell)),
        (∀ p ∈ data, p.1 ∉ ws.row_values 1) → (update_deal ws r data).1 = ws)
    ∧ (∀ (ws : Worksheet) (r : ℕ) (col : String) (v : Cell),
        col ∈ ws.row_values 1 →
          update_deal ws r [(col, v)]
            = (ws.update_cell r ((ws.row_values 1).indexOf col + 1) v, true)) := by
  refine ⟨fun ws r data => rfl, ?_, ?_⟩
  · intro ws r data
    induction data generalizing ws with
    | nil => intro _; rfl
    | cons p ps ih =>
      intro h
      have hp : p.1 ∉ ws.row_values 1 := h p (List.mem_cons_self p ps)
      have hps : ∀ q ∈ ps, q.1 ∉ ws.row_values 1 :=
        fun q hq => h q (List.mem_cons_of_mem p hq)
      show (update_deal ws r (p :: ps)).1 = ws
      simp only [update_deal, List.foldl_cons]
      rw [if_neg hp]
      exact ih ws hps
  · intro ws r col v h
    simp only [update_deal, List.foldl_cons, List.foldl_nil]
    rw [if_pos h]

/-- Claim C4, witness instance. -/
theorem C4_witness :
    ((update_deal ⟨[[Cell.str "Title"], [Cell.str "x"]]⟩ 2
        [("foo", Cell.num 1)]).1 = ⟨[[Cell.str "Title"], [Cell.str "x"]]⟩)
    ∧ (update_deal ⟨[[Cell.str "title"], [Cell.str "x"]]⟩ 2 [("title", Cell.str "y")]
      = ((⟨[[Cell.str "title"], [Cell.str "x"]]⟩ : Worksheet).update_cell 2
          ((((⟨[[Cell.str "title"], [Cell.str "x"]]⟩ : Worksheet).row_values 1).indexOf
              "title") + 1) (Cell.str "y"), true)) :=
  ⟨C4_update_skips_unknown_fields.2.1 _ 2 _ (by decide),
   C4_update_skips_unknown_fields.2.2 _ 2 "title" _ (by decide)⟩

/-- Claim C5, counterexample.  With no recognized `min_investment` column
in the input, the normalized record carries no `min_investment` field at
all (it is not synthesized as 0). -/
theorem C5_counterexample :
    (get_deals ⟨["Title"], [[Cell.str "A"]]⟩).map NDeal.min_investment = [none]
    ∧ (none : Option ℚ) ≠ some 0 := by decide

/-- Claim C5 (amended).  `min_investment` is not among the synthesized
required columns: when no recognized `min_investment` column is present,
every normalized record lacks the field entirely (it is `none`, not 0);
the per-cell default of 0 applies only when the column exists. -/
theorem C5_min_investment_none_when_absent :
    ∀ t : RawTable, "min_investment" ∉ t.headers.map canonicalize →
      ∀ d ∈ get_deals t, d.min_investment = none := by
  intro t h d hd
  unfold get_deals at hd
  by_cases hrows : t.rows.isEmpty
  · simp [hrows] at hd
  · rw [if_neg (by simpa using hrows)] at hd
    obtain ⟨hmem, -⟩ := List.mem_filter.mp hd
    obtain ⟨row, -, hdef⟩ := List.mem_map.mp hmem
    subst hdef
    simp [rowToDeal, h]

/-- Claim C5, witness instance. -/
theorem C5_witness :
    ("min_investment" ∉ (["Title"].map canonicalize))
    ∧ ∀ d ∈ get_deals ⟨["Title"], [[Cell.str "A"]]⟩, d.min_investment = none :=
  ⟨by decide, C5_min_investment_none_when_absent _ (by decide)⟩

/-- Claim C6, counterexample.  The search text is compiled as a regular
expression, not matched as a literal substring: the search text `"a.c"`
is not a substring of the title `"abc"` (nor of the empty description),
yet the record is retained, because `.` matches any character. -/
theorem C6_counterexample :
    apply_filters
        [{ title := "abc", description := "", industry := "Tech", status := "Open",
           target_amount := 0, raised_amount := 0 }]
        { search_term := "a.c", selected_industry := "All", selected_status := "All",
          amount_range := none }
      = [{ title := "abc", description := "", industry := "Tech", status := "Open",
           target_amount := 0, raised_amount := 0 }]
    ∧ isSubstringCI "a.c" "abc" = false
    ∧ isSubstringCI "a.c" "" = false := by decide

/-- Claim C6 (amended).  The filter result is exactly the records
satisfying the conjunction of the supplied predicates — omitted
predicates and the `'All'` sentinel impose no constraint, industry and
status match by exact case-sensitive equality, the amount range is
inclusive on both ends — and the search text matches as a
case-insensitive substring of title or description provided it contains
no regex metacharacter (the code hands it to `str.contains`, which
interprets it as a regular expression). -/
theorem C6_filter_is_conjunction :
    ∀ (deals : List Deal) (f : Filters),
      (∀ c ∈ f.search_term.data, c ∉ regexMeta) →
      apply_filters deals f = deals.filter (specFilterPred f) := by
  intro deals f h
  have hdot : '.' ∉ f.search_term.data := fun hc => h '.' hc (by decide)
  rw [apply_filters_eq_filter]
  exact List.filter_congr (fun d _ => by
    simp only [codeFilterPred, specFilterPred,
      str_contains_ci_eq_isSubstringCI d.title f.search_term hdot,
      str_contains_ci_eq_isSubstringCI d.description f.search_term hdot])

/-- Claim C6, witness instance. -/
theorem C6_witness :
    (∀ c ∈ "ab".data, c ∉ regexMeta)
    ∧ apply_filters
        [{ title := "xAby", description := "", industry := "Tech", status := "Open",
           target_amount := 5, raised_amount := 1 }]
        { search_term := "ab", selected_industry := "All", selected_status := "Open",
          amount_range := some (0, 10) }
      = List.filter
          (specFilterPred
            { search_term := "ab", selected_industry := "All", selected_status := "Open",
              amount_range := some (0, 10) })
          [{ title := "xAby", description := "", industry := "Tech", status := "Open",
             target_amount := 5, raised_amount := 1 }] :=
  ⟨by decide, C6_filter_is_conjunction _ _ (by decide)⟩

/-- Claim C7.  The displayed per-deal progress — in `display_deal_card`
and in `DealCard.create_progress_chart` — equals
`raised_amount / target_amount * 100` when `target_amount > 0` and equals
0 when `target_amount = 0`, whatever `raised_amount` is; both are guarded,
so no division by zero is performed. -/
theorem C7_progress_guarded (d : Deal) :
    (0 < d.target_amount →
      display_progress d = d.raised_amount / d.target_amount * 100
      ∧ create_progress_chart_value d.raised_amount d.target_amount
          = d.raised_amount / d.target_amount * 100)
    ∧ (d.target_amount = 0 →
      display_progress d = 0
      ∧ create_progress_chart_value d.raised_amount d.target_amount = 0) := by
  constructor
  · intro h
    constructor <;> simp [display_progress, create_progress_chart_value, h]
  · intro h
    constructor <;> simp [display_progress, create_progress_chart_value, h]

/-- Claim C7, witness instance. -/
theorem C7_witness :
    ((0 : ℚ) < 2
      ∧ display_progress
          { title := "A", description := "", industry := "T", status := "Open",
            target_amount := 2, raised_amount := 1 } = 1 / 2 * 100)
    ∧ ((0 : ℚ) = 0
      ∧ display_progress
          { title := "B", description := "", industry := "T", status := "Open",
            target_amount := 0, raised_amount := 7 } = 0) :=
  ⟨⟨by decide, ((C7_progress_guarded _).1 (by decide)).1⟩,
   ⟨rfl, ((C7_progress_guarded _).2 rfl).1⟩⟩

/-- Claim C8.  Filtering is idempotent: applying the same filter
parameters twice returns the same list, element for element and in the
same order, as applying them once. -/
theorem C8_filter_idempotent (deals : List Deal) (f : Filters) :
    apply_filters (apply_filters deals f) f = apply_filters deals f := by
  rw [apply_filters_eq_filter, apply_filters_eq_filter, List.filter_filter]
  simp only [Bool.and_self]

/-- Claim C9, counterexample.  On the empty collection the metrics
renderer does not return a zero-valued `Metrics` record — it returns
early with nothing. -/
theorem C9_counterexample :
    render_summary_metrics ([] : List Deal)
      ≠ some { total_deals := 0, total_target := 0, total_raised := 0,
               avg_progress := PFloat.fin 0, open_deals := 0 } := by decide

/-- Claim C9 (amended).  Applied to an empty collection, the summary
renderer raises no error but computes no metrics at all (it returns early
after an informational message), and the industry and status breakdown
renderers likewise return early with no mapping. -/
theorem C9_empty_collection_early_return :
    render_summary_metrics ([] : List Deal) = none
    ∧ render_industry_breakdown ([] : List Deal) = none
    ∧ render_status_distribution ([] : List Deal) = none := by decide

/-- Claim C10.  `add_deal` reports success and appends, positionally and
without consulting the sheet's headers (the appended row mentions only
the input mapping), exactly one row of exactly ten values in the fixed
order title, description, industry, target_amount, raised_amount, status,
min_investment, due_date, documents_link, image_url, defaulting absent
fields to `''` or `0` except `status`, which defaults to `"Open"`. -/
theorem C10_add_deal_fixed_row (ws : Worksheet) (deal_data : List (String × Cell)) :
    (add_deal ws deal_data).2 = true
    ∧ (add_deal ws deal_data).1.grid
        = ws.grid ++
          [[(deal_data.lookup "title").getD (Cell.str ""),
            (deal_data.lookup "description").getD (Cell.str ""),
            (deal_data.lookup "industry").getD (Cell.str ""),
            (deal_data.lookup "target_amount").getD (Cell.num 0),
            (deal_data.lookup "raised_amount").getD (Cell.num 0),
            (deal_data.lookup "status").getD (Cell.str "Open"),
            (deal_data.lookup "min_investment").getD (Cell.num 0),
            (deal_data.lookup "due_date").getD (Cell.str ""),
            (deal_data.lookup "documents_link").getD (Cell.str ""),
            (deal_data.lookup "image_url").getD (Cell.str "")]]
    ∧ ([(deal_data.lookup "title").getD (Cell.str ""),
        (deal_data.lookup "description").getD (Cell.str ""),
        (deal_data.lookup "industry").getD (Cell.str ""),
        (deal_data.lookup "target_amount").getD (Cell.num 0),
        (deal_data.lookup "raised_amount").getD (Cell.num 0),
        (deal_data.lookup "status").getD (Cell.str "Open"),
        (deal_data.lookup "min_investment").getD (Cell.num 0),
        (deal_data.lookup "due_date").getD (Cell.str ""),
        (deal_data.lookup "documents_link").getD (Cell.str ""),
        (deal_data.lookup "image_url").getD (Cell.str "")] : List Cell).length = 10 :=
  ⟨rfl, rfl, rfl⟩

end LP

